import Mathlib

/-!
Verification of the octocanvas utility functions: rarity classification,
username normalization, contribution totaling, language ranking, and stats
aggregation, shallowly embedded from the test-suite source.

Modelling conventions:
- JavaScript numbers are modelled by the rationals `ℚ` where fractional
  values matter (the rarity classifier); the literal `0.1` of the
  power-level formula is the exact rational `1/10`. Integer-valued
  counters (contribution counts, star and fork counts) are modelled by `ℤ`.
- JavaScript strings are modelled by `String`, with the `replace` and
  `trim` operations expressed structurally on the underlying `List Char`.
- A record that may lack a numeric field is modelled with an `Option ℤ`
  field; the JavaScript fallback `x || 0` becomes `Option.getD 0`.
- `Array.prototype.sort` with comparator `(b, a)` count difference is a
  stable sort by count descending; it is modelled by `List.insertionSort`,
  which inserts earlier elements before later equal-count ones and is
  therefore stable in the same sense (proved below as a filter equation).
-/

namespace Octocanvas

/-- The power-level formula of `calculateRarity`:
followers * 2 + repos * 1 + contributions * 0.1 + stars * 3 + forks * 2. -/
def powerLevel (followers repos contributions stars forks : ℚ) : ℚ :=
  followers * 2 + repos * 1 + contributions * (1/10) + stars * 3 + forks * 2

/-- The descending threshold chain of `calculateRarity`, applied to an
already-computed power level: first match wins, bounds inclusive. -/
def classifyPower (p : ℚ) : String :=
  if p ≥ 5000 then "mythical"
  else if p ≥ 2000 then "legendary"
  else if p ≥ 800 then "epic"
  else if p ≥ 300 then "rare"
  else if p ≥ 100 then "uncommon"
  else "common"

/-- Embedding of `calculateRarity` from the source: compute the power
level, then classify it by the descending threshold chain. -/
def calculateRarity (followers repos contributions stars forks : ℚ) : String :=
  classifyPower (powerLevel followers repos contributions stars forks)

/-- Rank of a rarity name in the fixed ordering
common < uncommon < rare < epic < legendary < mythical;
any other string ranks 0. -/
def rarityRank (t : String) : Nat :=
  if t = "mythical" then 5
  else if t = "legendary" then 4
  else if t = "epic" then 3
  else if t = "rare" then 2
  else if t = "uncommon" then 1
  else 0

/-- The rank of the tier assigned to a power level, written directly as a
threshold ladder; proved equal to `rarityRank` composed with
`classifyPower`. -/
def rankPower (p : ℚ) : Nat :=
  if p ≥ 5000 then 5
  else if p ≥ 2000 then 4
  else if p ≥ 800 then 3
  else if p ≥ 300 then 2
  else if p ≥ 100 then 1
  else 0

/-- Removal of trailing and leading whitespace, the JavaScript `trim`,
expressed on the character list of a string. -/
def trimChars (l : List Char) : List Char :=
  ((l.dropWhile Char.isWhitespace).reverse.dropWhile Char.isWhitespace).reverse

/-- The JavaScript `replace` of the regular expression matching one `@`
anchored at the very start of the string: drop the first character when it
is `@`, otherwise leave the list unchanged. -/
def stripLeadingAt (l : List Char) : List Char :=
  match l with
  | '@' :: rest => rest
  | _ => l

/-- Embedding of `getCleanUsername` from the source: strip a single
leading at-sign, then trim surrounding whitespace. -/
def getCleanUsername (s : String) : String :=
  ⟨trimChars (stripLeadingAt s.data)⟩

/-- The order used by the top-languages sort: entry `a` may come before
entry `b` exactly when the count of `b` does not exceed the count of `a`,
that is, sorting by count descending. -/
def countDesc (a b : String × ℤ) : Prop := b.2 ≤ a.2

instance : DecidableRel countDesc :=
  fun a b => inferInstanceAs (Decidable (b.2 ≤ a.2))

instance : IsTotal (String × ℤ) countDesc :=
  ⟨fun a b => le_total b.2 a.2⟩

instance : IsTrans (String × ℤ) countDesc :=
  ⟨fun _ _ _ h1 h2 => le_trans h2 h1⟩

/-- The stable sort by count descending applied to the entry list of the
language-count mapping (entries in insertion order). -/
def sortByCountDesc (l : List (String × ℤ)) : List (String × ℤ) :=
  List.insertionSort countDesc l

/-- Embedding of the top-languages computation from the source: sort the
entries by count descending with a stable sort, take the first three, and
keep the names. -/
def topLanguages (l : List (String × ℤ)) : List String :=
  ((sortByCountDesc l).take 3).map Prod.fst

/-- One day record of the contribution calendar. -/
structure ContributionDay where
  contributionCount : ℤ

/-- One week bucket of the contribution calendar. -/
structure ContributionWeek where
  contributionDays : List ContributionDay

/-- Embedding of the contribution-totaling reduction from the source:
an outer reduce over weeks of an inner reduce over the days of each week,
both starting from zero. -/
def total (weeks : List ContributionWeek) : ℤ :=
  weeks.foldl
    (fun sum week =>
      sum + week.contributionDays.foldl (fun s day => s + day.contributionCount) 0)
    0

/-- A repository record whose counter fields may be absent. -/
structure Repo where
  stargazers_count : Option ℤ
  forks_count : Option ℤ

/-- Embedding of the total-stars reduction from the source: sum the
stargazer counts, an absent field contributing zero. -/
def totalStars (repos : List Repo) : ℤ :=
  repos.foldl (fun sum repo => sum + repo.stargazers_count.getD 0) 0

/-- Embedding of the total-forks reduction from the source: sum the fork
counts, an absent field contributing zero. -/
def totalForks (repos : List Repo) : ℤ :=
  repos.foldl (fun sum repo => sum + repo.forks_count.getD 0) 0

/-- The display data attached to one rarity tier. -/
structure RarityInfo where
  name : String
  color : String
  gradient : String

/-- The static RARITY_LEVELS table from the configuration constants. -/
def RARITY_LEVELS : List (String × RarityInfo) :=
  [("common", ⟨"Common", "#909692", "from-gray-500 to-gray-600"⟩),
   ("uncommon", ⟨"Uncommon", "#8CF2A6", "from-green-400 to-green-500"⟩),
   ("rare", ⟨"Rare", "#58A6FF", "from-blue-400 to-blue-500"⟩),
   ("epic", ⟨"Epic", "#DCFF96", "from-yellow-400 to-lime-400"⟩),
   ("legendary", ⟨"Legendary", "#BC8CFF", "from-purple-400 to-purple-500"⟩),
   ("mythical", ⟨"Mythical", "#5FED83", "from-green-300 to-green-400"⟩)]

/-- Ranking the tier of a power level agrees with the direct threshold
ladder `rankPower`. -/
theorem rarityRank_classifyPower (p : ℚ) :
    rarityRank (classifyPower p) = rankPower p := by
  unfold classifyPower rankPower
  split_ifs <;> decide

/-- The threshold ladder is monotone in the power level. -/
theorem rankPower_mono (p1 p2 : ℚ) (h : p1 ≤ p2) :
    rankPower p1 ≤ rankPower p2 := by
  unfold rankPower
  split_ifs <;> first | omega | linarith

/-- Folding addition of a mapped value over a list equals the initial
value plus the sum of the mapped list. -/
theorem foldl_add_map {α : Type} (f : α → ℤ) (l : List α) :
    ∀ a : ℤ, List.foldl (fun s x => s + f x) a l = a + (l.map f).sum := by
  induction l with
  | nil => intro a; simp
  | cons x xs ih => intro a; simp [ih, List.sum_cons]; ring

/-- Filtering an ordered insertion by an exact count keeps the inserted
entry at the front of the matching entries when its count matches, and is
invisible to the filter otherwise. -/
theorem filter_orderedInsert (v : ℤ) (x : String × ℤ) (l : List (String × ℤ)) :
    (List.orderedInsert countDesc x l).filter (fun y => y.2 == v) =
      if x.2 == v then x :: l.filter (fun y => y.2 == v)
      else l.filter (fun y => y.2 == v) := by
  induction l with
  | nil =>
    by_cases h : x.2 == v <;> simp [List.orderedInsert, List.filter, h]
  | cons y ys ih =>
    by_cases hxy : countDesc x y
    · by_cases h : x.2 == v <;> simp [List.orderedInsert, hxy, List.filter_cons, h]
    · have hlt : x.2 < y.2 := by
        unfold countDesc at hxy
        exact lt_of_not_le hxy
      by_cases h : x.2 == v
      · have hxv : x.2 = v := by simpa using h
        have hyv : ¬ (y.2 == v) = true := by
          simp only [beq_iff_eq]
          omega
        simp [List.orderedInsert, hxy, List.filter_cons, ih, h, hyv]
      · by_cases hy : y.2 == v <;>
          simp [List.orderedInsert, hxy, List.filter_cons, ih, h, hy]

/-- The stable sort by count descending preserves, for each exact count,
the relative order of the entries bearing that count. -/
theorem sortByCountDesc_filter (l : List (String × ℤ)) (v : ℤ) :
    (sortByCountDesc l).filter (fun y => y.2 == v) =
      l.filter (fun y => y.2 == v) := by
  induction l with
  | nil => rfl
  | cons x xs ih =>
    unfold sortByCountDesc at *
    by_cases h : x.2 == v <;>
      simp [List.insertionSort, filter_orderedInsert, ih, List.filter_cons, h]

end Octocanvas

namespace Octocanvas

/-- C1: calculateRarity computes powerLevel as
followers * 2 + repos * 1 + contributions * 0.1 + stars * 3 + forks * 2
and classifies it by descending inclusive thresholds, first match winning:
5000 mythical, 2000 legendary, 800 epic, 300 rare, 100 uncommon, else
common. -/
theorem calculateRarity_spec (f r c s k : ℚ) :
    calculateRarity f r c s k =
      (let p := f * 2 + r * 1 + c * (1/10) + s * 3 + k * 2
       if p ≥ 5000 then "mythical"
       else if p ≥ 2000 then "legendary"
       else if p ≥ 800 then "epic"
       else if p ≥ 300 then "rare"
       else if p ≥ 100 then "uncommon"
       else "common") := rfl

/-- C2: classification is inclusive at the tier boundaries: a power level
of exactly 100 gives uncommon, 300 rare, 800 epic, 2000 legendary, 5000
mythical, and 99.999 (strictly below 100) gives common. -/
theorem boundary_inclusive (f r c s k : ℚ) :
    (powerLevel f r c s k = 100 → calculateRarity f r c s k = "uncommon") ∧
    (powerLevel f r c s k = 300 → calculateRarity f r c s k = "rare") ∧
    (powerLevel f r c s k = 800 → calculateRarity f r c s k = "epic") ∧
    (powerLevel f r c s k = 2000 → calculateRarity f r c s k = "legendary") ∧
    (powerLevel f r c s k = 5000 → calculateRarity f r c s k = "mythical") ∧
    (powerLevel f r c s k = 99999/1000 → calculateRarity f r c s k = "common") := by
  refine ⟨?_, ?_, ?_, ?_, ?_, ?_⟩ <;>
    · intro h
      show classifyPower (powerLevel f r c s k) = _
      rw [h]
      norm_num [classifyPower]

/-- Witness for C2 at concrete inputs reaching each boundary exactly. -/
theorem boundary_inclusive_witness :
    calculateRarity 50 0 0 0 0 = "uncommon" ∧
    calculateRarity 150 0 0 0 0 = "rare" ∧
    calculateRarity 400 0 0 0 0 = "epic" ∧
    calculateRarity 1000 0 0 0 0 = "legendary" ∧
    calculateRarity 2500 0 0 0 0 = "mythical" ∧
    calculateRarity 0 0 (99999/100) 0 0 = "common" :=
  ⟨(boundary_inclusive 50 0 0 0 0).1 (by norm_num [powerLevel]),
   (boundary_inclusive 150 0 0 0 0).2.1 (by norm_num [powerLevel]),
   (boundary_inclusive 400 0 0 0 0).2.2.1 (by norm_num [powerLevel]),
   (boundary_inclusive 1000 0 0 0 0).2.2.2.1 (by norm_num [powerLevel]),
   (boundary_inclusive 2500 0 0 0 0).2.2.2.2.1 (by norm_num [powerLevel]),
   (boundary_inclusive 0 0 (99999/100) 0 0).2.2.2.2.2 (by norm_num [powerLevel])⟩

/-- C3: the tier assignment is a monotone step function of the power
level: a larger power level never receives a strictly lower tier in the
ordering common < uncommon < rare < epic < legendary < mythical. -/
theorem classifyPower_monotone (p1 p2 : ℚ) (h : p1 ≤ p2) :
    rarityRank (classifyPower p1) ≤ rarityRank (classifyPower p2) := by
  rw [rarityRank_classifyPower, rarityRank_classifyPower]
  exact rankPower_mono p1 p2 h

/-- Witness for C3 at the concrete pair 1 ≤ 200. -/
theorem classifyPower_monotone_witness :
    rarityRank (classifyPower 1) ≤ rarityRank (classifyPower 200) :=
  classifyPower_monotone 1 200 (by norm_num)

/-- C4: for non-negative metrics, the power level is monotonically
non-decreasing in each of the five metrics independently: raising any one
metric by a non-negative amount never lowers the power level. -/
theorem powerLevel_monotone_each (f r c s k d : ℚ)
    (hf : 0 ≤ f) (hr : 0 ≤ r) (hc : 0 ≤ c) (hs : 0 ≤ s) (hk : 0 ≤ k)
    (hd : 0 ≤ d) :
    powerLevel f r c s k ≤ powerLevel (f + d) r c s k ∧
    powerLevel f r c s k ≤ powerLevel f (r + d) c s k ∧
    powerLevel f r c s k ≤ powerLevel f r (c + d) s k ∧
    powerLevel f r c s k ≤ powerLevel f r c (s + d) k ∧
    powerLevel f r c s k ≤ powerLevel f r c s (k + d) := by
  unfold powerLevel
  refine ⟨by nlinarith, by nlinarith, by nlinarith, by nlinarith, by nlinarith⟩

/-- Witness for C4 at the concrete metrics (1, 2, 3, 4, 5) raised by 6. -/
theorem powerLevel_monotone_each_witness :
    powerLevel 1 2 3 4 5 ≤ powerLevel (1 + 6) 2 3 4 5 ∧
    powerLevel 1 2 3 4 5 ≤ powerLevel 1 (2 + 6) 3 4 5 ∧
    powerLevel 1 2 3 4 5 ≤ powerLevel 1 2 (3 + 6) 4 5 ∧
    powerLevel 1 2 3 4 5 ≤ powerLevel 1 2 3 (4 + 6) 5 ∧
    powerLevel 1 2 3 4 5 ≤ powerLevel 1 2 3 4 (5 + 6) :=
  powerLevel_monotone_each 1 2 3 4 5 6 (by norm_num) (by norm_num)
    (by norm_num) (by norm_num) (by norm_num) (by norm_num)

/-- C5: calculateRarity is total over the rationals and validates
nothing: the power level is always the plain linear combination, with no
clamping of negative inputs, so (-10, -5, -100, -10, -5) classifies as
common, and the fractional input contributions = 999.5 is used unrounded,
giving power level 99.95 and the class common. -/
theorem calculateRarity_total_no_validation :
    (∀ f r c s k : ℚ,
      powerLevel f r c s k = f * 2 + r * 1 + c * (1/10) + s * 3 + k * 2) ∧
    calculateRarity (-10) (-5) (-100) (-10) (-5) = "common" ∧
    powerLevel 0 0 (1999/2) 0 0 = 1999/20 ∧
    calculateRarity 0 0 (1999/2) 0 0 = "common" :=
  ⟨fun _ _ _ _ _ => rfl,
   by norm_num [calculateRarity, classifyPower, powerLevel],
   by norm_num [powerLevel],
   by norm_num [calculateRarity, classifyPower, powerLevel]⟩

/-- C6: getCleanUsername strips one leading at-sign only when it is the
first character, then trims whitespace: "@octocat" becomes "octocat",
"  @octocat  " becomes "@octocat", "@@a" becomes "@a", and internal
at-signs are never removed. -/
theorem getCleanUsername_spec :
    getCleanUsername "@octocat" = "octocat" ∧
    getCleanUsername "  @octocat  " = "@octocat" ∧
    getCleanUsername "@@a" = "@a" ∧
    getCleanUsername "user@name" = "user@name" ∧
    getCleanUsername "@user@name" = "user@name" ∧
    getCleanUsername "@" = "" := by
  refine ⟨?_, ?_, ?_, ?_, ?_, ?_⟩ <;> decide

/-- C7: the top-languages computation sorts the entries by count
descending with a stable sort and takes the first three names; the sample
mapping gives TypeScript, JavaScript, Python, equal-count entries keep
their insertion order, and a mapping of fewer than three entries yields
all its entries in descending count order. -/
theorem topLanguages_spec (m : List (String × ℤ)) (hm : m.length < 3) :
    topLanguages [("JavaScript", 15), ("Python", 8), ("TypeScript", 20), ("Go", 5)]
      = ["TypeScript", "JavaScript", "Python"] ∧
    topLanguages [("JavaScript", 10), ("Python", 10), ("TypeScript", 5)]
      = ["JavaScript", "Python", "TypeScript"] ∧
    topLanguages m = (sortByCountDesc m).map Prod.fst ∧
    (sortByCountDesc m).Perm m ∧
    List.Sorted countDesc (sortByCountDesc m) ∧
    (∀ (l : List (String × ℤ)) (v : ℤ),
      (sortByCountDesc l).filter (fun y => y.2 == v)
        = l.filter (fun y => y.2 == v)) := by
  refine ⟨by decide, by decide, ?_, ?_, ?_, sortByCountDesc_filter⟩
  · have hlen : (sortByCountDesc m).length = m.length :=
      (List.perm_insertionSort countDesc m).length_eq
    unfold topLanguages
    rw [List.take_of_length_le (by omega)]
  · exact List.perm_insertionSort countDesc m
  · exact List.sorted_insertionSort countDesc m

/-- Witness for C7 at the concrete one-entry mapping Ruby with count 7. -/
theorem topLanguages_spec_witness :
    topLanguages [("JavaScript", 15), ("Python", 8), ("TypeScript", 20), ("Go", 5)]
      = ["TypeScript", "JavaScript", "Python"] ∧
    topLanguages [("JavaScript", 10), ("Python", 10), ("TypeScript", 5)]
      = ["JavaScript", "Python", "TypeScript"] ∧
    topLanguages [("Ruby", 7)] = (sortByCountDesc [("Ruby", 7)]).map Prod.fst ∧
    (sortByCountDesc [("Ruby", 7)]).Perm [("Ruby", 7)] ∧
    List.Sorted countDesc (sortByCountDesc [("Ruby", 7)]) ∧
    (∀ (l : List (String × ℤ)) (v : ℤ),
      (sortByCountDesc l).filter (fun y => y.2 == v)
        = l.filter (fun y => y.2 == v)) :=
  topLanguages_spec [("Ruby", 7)] (by decide)

/-- C8: the contribution total is the sum of every per-day count across
all week buckets, and an empty week sequence totals zero. -/
theorem total_spec :
    total [] = 0 ∧
    (∀ weeks : List ContributionWeek,
      total weeks =
        ((weeks.map
          (fun w => ((w.contributionDays.map
            (fun d => d.contributionCount)).sum))).sum)) ∧
    total [⟨[⟨5⟩, ⟨3⟩]⟩, ⟨[⟨2⟩, ⟨4⟩]⟩] = 14 := by
  refine ⟨rfl, ?_, by decide⟩
  intro weeks
  unfold total
  simp [foldl_add_map]

/-- C9: the stat aggregation sums a numeric field across the records, an
absent field contributing zero, and an empty record list sums to zero;
this holds for both the stargazer and the fork counters. -/
theorem totalStars_spec :
    totalStars [] = 0 ∧
    totalForks [] = 0 ∧
    (∀ repos : List Repo,
      totalStars repos = (repos.map (fun repo => repo.stargazers_count.getD 0)).sum) ∧
    (∀ repos : List Repo,
      totalForks repos = (repos.map (fun repo => repo.forks_count.getD 0)).sum) ∧
    totalStars [⟨some 100, none⟩, ⟨some 50, none⟩, ⟨some 25, none⟩] = 175 ∧
    totalStars [⟨some 100, none⟩, ⟨none, none⟩, ⟨some 50, none⟩] = 150 ∧
    totalForks [⟨none, some 10⟩, ⟨none, some 5⟩, ⟨none, some 8⟩] = 23 := by
  refine ⟨rfl, rfl, ?_, ?_, by decide, by decide, by decide⟩ <;>
    · intro repos
      first
      | (unfold totalStars; simp [foldl_add_map])
      | (unfold totalForks; simp [foldl_add_map])

/-- C10: every result of calculateRarity is one of the six rarity names,
and each of these is a key of the static RARITY_LEVELS table, so every
classification result has display data defined for it. -/
theorem calculateRarity_in_table (f r c s k : ℚ) :
    calculateRarity f r c s k ∈
      ["common", "uncommon", "rare", "epic", "legendary", "mythical"] ∧
    (List.lookup (calculateRarity f r c s k) RARITY_LEVELS).isSome = true := by
  unfold calculateRarity classifyPower
  split_ifs <;> exact ⟨by decide, by decide⟩

end Octocanvas
